import Mathlib

/-!
Shallow embedding of the Trip Manager of the abstreet simulator
(src/sim/src/trips.rs), together with theorems checking the
natural-language specification against it.

Modelling conventions:
- Rust functions that can panic (index out of range, unwrap of a None,
  failed assert, an unreachable arm) are embedded as Option-returning
  functions; a result of none models a panic, which aborts the program
  before any mutation becomes observable.
- usize arithmetic is modelled on Nat; subtraction is Nat truncated
  subtraction, and the states considered in the theorems never underflow.
- Time, Duration, Speed and Distance are modelled as Nat.
- The BTreeMap of active agents is modelled as an association list with
  unique keys; no claim depends on its iteration order.
- Collaborators outside this file (the map, the parking manager, the
  transit state, the congestion cap) are modelled from the spec as
  structures whose query methods are function fields and whose mutations
  are recorded in effect lists; the formatted strings inside Alert events
  are abbreviated since no claim constrains their text.
- Mutual recursion between cancel_trip, person_finished_trip and
  start_trip is broken with an explicit fuel parameter; fuel 0 models a
  panic and every theorem supplies enough fuel.
-/

namespace AbStreet

set_option synthInstance.maxHeartbeats 1000000

abbrev Time := Nat
abbrev Duration := Nat
abbrev Speed := Nat
abbrev Distance := Nat

/-- Identifier of a person, a dense index. -/
structure PersonID where
  idx : Nat
deriving DecidableEq, Repr

/-- Identifier of a trip, a dense index. -/
structure TripID where
  idx : Nat
deriving DecidableEq, Repr

/-- Identifier of a pedestrian agent. -/
structure PedestrianID where
  idx : Nat
deriving DecidableEq, Repr

/-- Identifier of a building on the map. -/
structure BuildingID where
  idx : Nat
deriving DecidableEq, Repr

/-- Identifier of an intersection on the map. -/
structure IntersectionID where
  idx : Nat
deriving DecidableEq, Repr

/-- Identifier of a lane on the map. -/
structure LaneID where
  idx : Nat
deriving DecidableEq, Repr

/-- Identifier of a bus stop. -/
structure BusStopID where
  idx : Nat
deriving DecidableEq, Repr

/-- Identifier of a bus route. -/
structure BusRouteID where
  idx : Nat
deriving DecidableEq, Repr

/-- Identifier of a parking lot. -/
structure ParkingLotID where
  idx : Nat
deriving DecidableEq, Repr

/-- Identifier of an original (external) person id; abstract. -/
structure OrigPersonID where
  idx : Nat
deriving DecidableEq, Repr

/-- Kind tag carried by a CarID. -/
inductive VehicleType
  | Car
  | Bike
  | Bus
  | Train
deriving DecidableEq, Repr

/-- Identifier of a vehicle; carries its kind. -/
structure CarID where
  idx : Nat
  vehicle_type : VehicleType
deriving DecidableEq, Repr

/-- An abstract address outside the simulated map region. -/
structure OffMapLocation where
  tag : Nat
deriving DecidableEq, Repr

/-- A currently simulated agent. -/
inductive AgentID
  | Pedestrian (ped : PedestrianID)
  | Car (car : CarID)
  | BusPassenger (person : PersonID) (bus : CarID)
deriving DecidableEq, Repr

/-- A position on a lane: the lane and the distance along it. -/
structure Position where
  lane : LaneID
  dist_along : Distance
deriving DecidableEq, Repr

/-- Builds the position at the start of a lane. -/
def Position.start (l : LaneID) : Position := ⟨l, 0⟩

/-- A parking spot: on-street, off-street inside a building, or in a lot. -/
inductive ParkingSpot
  | Onstreet (lane : LaneID) (index : Nat)
  | Offstreet (bldg : BuildingID) (index : Nat)
  | Lot (lot : ParkingLotID) (index : Nat)
deriving DecidableEq, Repr

/-- Modelled from the spec: the semantic tag attached to a sidewalk
position (map_model is not under src/); the variants are the ones
trips.rs constructs and matches on. -/
inductive SidewalkPOI
  | ParkingSpotPOI (spot : ParkingSpot)
  | DeferredParkingSpot
  | Building (b : BuildingID)
  | BusStop (stop : BusStopID)
  | Border (i : IntersectionID) (loc : Option OffMapLocation)
  | BikeRack (pos : Position)
  | SuddenlyAppear
deriving DecidableEq, Repr

/-- A sidewalk location: a point of interest and its sidewalk position. -/
structure SidewalkSpot where
  connection : SidewalkPOI
  sidewalk_pos : Position
deriving DecidableEq, Repr

/-- Where a driving leg is headed. -/
inductive DrivingGoal
  | ParkNear (b : BuildingID)
  | Border (i : IntersectionID) (lane : LaneID) (loc : Option OffMapLocation)
deriving DecidableEq, Repr

/-- One remaining leg of a trip. -/
inductive TripLeg
  | Walk (spot : SidewalkSpot)
  | Drive (car : CarID) (goal : DrivingGoal)
  | RideBus (route : BusRouteID) (maybe_stop2 : Option BusStopID)
  | Remote (dest : OffMapLocation)
deriving DecidableEq, Repr

/-- The mode of a whole trip. -/
inductive TripMode
  | Walk
  | Bike
  | Transit
  | Drive
deriving DecidableEq, Repr

/-- Origin or destination of a trip. -/
inductive TripEndpoint
  | Bldg (b : BuildingID)
  | Border (i : IntersectionID) (loc : Option OffMapLocation)
deriving DecidableEq, Repr

/-- Purpose of a trip; abstract tag. -/
structure TripPurpose where
  tag : Nat
deriving DecidableEq, Repr

/-- Constraints a path request is made under. -/
inductive PathConstraints
  | Pedestrian
  | Car
  | Bike
  | Bus
  | Train
deriving DecidableEq, Repr

/-- A request for a path between two positions. -/
structure PathRequest where
  start : Position
  endp : Position
  constraints : PathConstraints
deriving DecidableEq, Repr

/-- A path returned by the map pathfinder; abstract. -/
structure Path where
  tag : Nat
deriving DecidableEq, Repr

/-- A concrete vehicle owned by a person. -/
structure Vehicle where
  id : CarID
  vehicle_type : VehicleType
  length : Distance
  owner : Option PersonID
deriving DecidableEq, Repr

/-- A parked vehicle: the vehicle, its spot, and since when. -/
structure ParkedCar where
  vehicle : Vehicle
  spot : ParkingSpot
  parked_since : Time
deriving DecidableEq, Repr

/-- Phase tag for TripPhaseStarting events; only the variants trips.rs
emits are modelled. -/
inductive TripPhaseType
  | DelayedStart
  | WaitingForBus (route : BusRouteID) (stop : BusStopID)
  | Remote
deriving DecidableEq, Repr

/-- Location attached to an Alert event; trips.rs only uses Person. -/
inductive AlertLocation
  | Person (p : PersonID)
deriving DecidableEq, Repr

/-- Events pushed to the internal buffer by the Trip Manager. -/
inductive Event
  | PersonEntersBuilding (p : PersonID) (b : BuildingID)
  | PersonLeavesBuilding (p : PersonID) (b : BuildingID)
  | PersonEntersRemoteBuilding (p : PersonID) (loc : OffMapLocation)
  | PersonLeavesRemoteBuilding (p : PersonID) (loc : OffMapLocation)
  | PersonEntersMap (p : PersonID) (a : AgentID) (i : IntersectionID)
      (loc : Option OffMapLocation)
  | PersonLeavesMap (p : PersonID) (a : Option AgentID) (i : IntersectionID)
      (loc : Option OffMapLocation)
  | PedReachedParkingSpot (ped : PedestrianID) (spot : ParkingSpot)
  | BikeStoppedAtSidewalk (bike : CarID) (lane : LaneID)
  | TripFinished (trip : TripID) (mode : TripMode) (total_time : Duration)
      (blocked_time : Duration)
  | TripCancelled (trip : TripID)
  | TripPhaseStarting (trip : TripID) (p : PersonID) (req : Option PathRequest)
      (phase : TripPhaseType)
  | Alert (loc : AlertLocation) (msg : String)
deriving DecidableEq, Repr

/-- State of a person between and during trips. -/
inductive PersonState
  | Trip (t : TripID)
  | Inside (b : BuildingID)
  | OffMap
deriving DecidableEq, Repr

/-- Mode-specific parameters handed to start_trip. Modelled from the
fields trips.rs destructures (the TripSpec definition is not under
src/); fields trips.rs ignores with .. are omitted. -/
inductive TripSpec
  | VehicleAppearing (start_pos : Position) (goal : DrivingGoal)
      (retry_if_no_room : Bool) (use_vehicle : CarID)
      (origin : Option OffMapLocation)
  | NoRoomToSpawn (i : IntersectionID) (use_vehicle : CarID) (error : String)
  | UsingParkedCar (car : CarID) (start_bldg : BuildingID)
  | JustWalking (start : SidewalkSpot) (goal : SidewalkSpot)
  | UsingBike (start : BuildingID)
  | UsingTransit (start : SidewalkSpot) (stop1 : BusStopID)
  | Remote (trip_time : Duration) (from_ : OffMapLocation)
deriving DecidableEq, Repr

/-- A deferred trip entry: id, spec, optional path request, optional path. -/
abbrev DelayedTrip := TripID × TripSpec × Option PathRequest × Option Path

/-- Per-person record. -/
structure Person where
  id : PersonID
  orig_id : Option OrigPersonID
  trips : List TripID
  state : PersonState
  ped : PedestrianID
  ped_speed : Speed
  vehicles : List Vehicle
  delayed_trips : List DelayedTrip
  on_bus : Option CarID
deriving DecidableEq, Repr

/-- Immutable info of a trip plus its cancellation reason. -/
structure TripInfo where
  departure : Time
  mode : TripMode
  start : TripEndpoint
  endp : TripEndpoint
  purpose : TripPurpose
  modified : Bool
  capped : Bool
  cancellation_reason : Option String
deriving DecidableEq, Repr

/-- Per-trip record: info plus mutable progress. -/
structure Trip where
  id : TripID
  info : TripInfo
  started : Bool
  finished_at : Option Time
  total_blocked_time : Duration
  legs : List TripLeg
  person : PersonID
deriving DecidableEq, Repr

/-- The Trip Manager state. -/
structure TripManager where
  trips : List Trip
  people : List Person
  active_trip_mode : List (AgentID × TripID)
  unfinished_trips : Nat
  pathfinding_upfront : Bool
  car_id_counter : Nat
  events : List Event
deriving DecidableEq, Repr

/-- Possible answers of the trip_to_agent query. -/
inductive TripResult
  | Ok (a : AgentID)
  | ModeChange
  | TripDone
  | TripDoesntExist
  | TripNotStarted
  | TripCancelled
  | RemoteTrip
deriving DecidableEq, Repr

/-- The router handed to a spawned car; abstract carrier of the goal and path. -/
structure Router where
  vehicle : CarID
  path : Path
  goal : DrivingGoal
deriving DecidableEq, Repr

/-- Builds a router for a vehicle along a path towards this goal. -/
def DrivingGoal.makeRouter (self : DrivingGoal) (vehicle : CarID) (path : Path) : Router :=
  ⟨vehicle, path, self⟩

/-- Parameters of a SpawnPed scheduler command. -/
structure CreatePedestrian where
  id : PedestrianID
  speed : Speed
  start : SidewalkSpot
  goal : SidewalkSpot
  path : Path
  req : PathRequest
  trip : TripID
  person : PersonID
deriving DecidableEq, Repr

/-- Parameters of a SpawnCar scheduler command. -/
inductive CreateCar
  | forAppearing (vehicle : Vehicle) (start : Position) (router : Router)
      (req : PathRequest) (trip : TripID) (person : PersonID)
  | forParkedCar (parked : ParkedCar) (router : Router) (req : PathRequest)
      (start_dist : Distance) (trip : TripID) (person : PersonID)
deriving DecidableEq, Repr

/-- Commands the Trip Manager pushes onto the scheduler. -/
inductive Command
  | SpawnPed (create : CreatePedestrian)
  | SpawnCar (create : CreateCar) (retry_if_no_room : Bool)
  | FinishRemoteTrip (trip : TripID)
deriving DecidableEq, Repr

/-- Builds a SpawnPed command from the fields trips.rs fills in. -/
def mkSpawnPed (ped : PedestrianID) (speed : Speed) (start : SidewalkSpot)
    (goal : SidewalkSpot) (path : Path) (req : PathRequest) (trip : TripID)
    (person : PersonID) : Command :=
  Command.SpawnPed ⟨ped, speed, start, goal, path, req, trip, person⟩

/-- Modelled from the spec: the read-only map collaborator (map_model is
not under src/). Only the queries trips.rs performs are modelled, each as
a function field. -/
structure Map where
  all_incoming_borders : List IntersectionID
  busRouteEndBorder : BusRouteID → Option LaneID
  laneDstI : LaneID → IntersectionID
  laneSrcI : LaneID → IntersectionID
  pathfind : PathRequest → Option Path
  bldgSidewalkPos : BuildingID → Position
  busStopSidewalkPos : BusStopID → Position
  find_driving_lane_near_building : BuildingID → LaneID
  bikeRackSpot : BuildingID → Option SidewalkSpot

/-- Modelled from the spec: the parking manager collaborator. Queries are
function fields describing the pre-existing parking world; mutations are
recorded in the effect lists reserved_spots, parked_cars, removed_cars. -/
structure ParkingSim where
  spotSidewalkPos : ParkingSpot → Position
  lookupParkedCar : CarID → Option ParkedCar
  getAllFreeSpots : Position → Vehicle → BuildingID → List (ParkingSpot × Position)
  pathToFreeParkingSpot : LaneID → Vehicle → BuildingID → Option (LaneID × ParkingSpot × Position)
  reserved_spots : List ParkingSpot
  parked_cars : List ParkedCar
  removed_cars : List ParkedCar

/-- Records a spot reservation. -/
def ParkingSim.reserveSpot (self : ParkingSim) (spot : ParkingSpot) : ParkingSim :=
  { self with reserved_spots := self.reserved_spots ++ [spot] }

/-- Records parking a car at a spot. -/
def ParkingSim.addParkedCar (self : ParkingSim) (p : ParkedCar) : ParkingSim :=
  { self with parked_cars := self.parked_cars ++ [p] }

/-- Records removing a parked car. -/
def ParkingSim.removeParkedCar (self : ParkingSim) (p : ParkedCar) : ParkingSim :=
  { self with removed_cars := self.removed_cars ++ [p] }

/-- Modelled from the spec: the transit collaborator; answers whether a
bus is at the stop right now (and which). -/
structure TransitSimState where
  pedWaitingForBus : Time → PedestrianID → TripID → PersonID → BusStopID → BusRouteID →
    Option BusStopID → Option CarID

/-- Modelled from the spec: the congestion cap; validates a path, possibly
rewriting it and flipping the capped flag it is handed. -/
structure CapSim where
  validate_path : PathRequest → Path → Time → CarID → Bool → Option Path × Bool

/-- The mutable collaborator context handed to handlers. -/
structure Ctx where
  map : Map
  parking : ParkingSim
  scheduler : List (Time × Command)
  cap : CapSim

/-- Builds the sidewalk spot at the door of a building. -/
def SidewalkSpot.building (b : BuildingID) (map : Map) : SidewalkSpot :=
  ⟨SidewalkPOI.Building b, map.bldgSidewalkPos b⟩

/-- Builds the sidewalk spot at a bus stop. -/
def SidewalkSpot.busStop (stop : BusStopID) (map : Map) : SidewalkSpot :=
  ⟨SidewalkPOI.BusStop stop, map.busStopSidewalkPos stop⟩

/-- Builds the sidewalk spot next to a parking spot; the map argument
mirrors the source signature and the position comes from the parking
manager. -/
def SidewalkSpot.parkingSpot (spot : ParkingSpot) (_map : Map) (parking : ParkingSim) :
    SidewalkSpot :=
  ⟨SidewalkPOI.ParkingSpotPOI spot, parking.spotSidewalkPos spot⟩

/-- The sentinel spot meaning wherever the car ends up parking. -/
def SidewalkSpot.deferredParkingSpot : SidewalkSpot :=
  ⟨SidewalkPOI.DeferredParkingSpot, ⟨⟨0⟩, 0⟩⟩

/-- The bike rack spot of a building, when it has one. -/
def SidewalkSpot.bikeRack (b : BuildingID) (map : Map) : Option SidewalkSpot :=
  map.bikeRackSpot b

/-- Looks an agent up in the active-agent registry. -/
def amLookup (m : List (AgentID × TripID)) (a : AgentID) : Option TripID :=
  (m.find? (fun entry => decide (entry.1 = a))).map Prod.snd

/-- Removes an agent from the active-agent registry. -/
def amRemove (m : List (AgentID × TripID)) (a : AgentID) : List (AgentID × TripID) :=
  m.filter (fun entry => decide (entry.1 ≠ a))

/-- Inserts a binding into the active-agent registry, replacing any
binding of the same agent. -/
def amInsert (m : List (AgentID × TripID)) (a : AgentID) (t : TripID) :
    List (AgentID × TripID) :=
  amRemove m a ++ [(a, t)]

/-- Embeds the end-endpoint derivation of TripManager::new_trip from the
last leg (trips.rs lines 114-133); none models a panic of an assert or an
unreachable arm. -/
def tripEndFromLegs (map : Map) (legs : List TripLeg) : Option TripEndpoint :=
  match legs.getLast? with
  | some (TripLeg.Walk spot) =>
    match spot.connection with
    | SidewalkPOI.Building b => some (TripEndpoint.Bldg b)
    | SidewalkPOI.Border i loc => some (TripEndpoint.Border i loc)
    | _ => none
  | some (TripLeg.Drive _ (DrivingGoal.ParkNear b)) => some (TripEndpoint.Bldg b)
  | some (TripLeg.Drive _ (DrivingGoal.Border i _ loc)) => some (TripEndpoint.Border i loc)
  | some (TripLeg.Remote dest) =>
    map.all_incoming_borders.head?.map (fun i => TripEndpoint.Border i (some dest))
  | some (TripLeg.RideBus r maybe_stop2) =>
    match maybe_stop2 with
    | none => (map.busRouteEndBorder r).map (fun l => TripEndpoint.Border (map.laneDstI l) none)
    | some _ => none
  | none => none

/-- Embeds TripManager::new_trip. Returns the updated manager and the new
TripID; none models a panic (empty legs, malformed last leg, bad person
index, or a decreasing departure). -/
def newTrip (person : PersonID) (departure : Time) (start : TripEndpoint) (mode : TripMode)
    (purpose : TripPurpose) (modified : Bool) (legs : List TripLeg) (map : Map)
    (tm : TripManager) : Option (TripManager × TripID) :=
  if legs.isEmpty then none
  else
    let id : TripID := ⟨tm.trips.length⟩
    match tripEndFromLegs map legs with
    | none => none
    | some endp =>
      let trip : Trip := {
        id := id,
        info := { departure := departure, mode := mode, start := start, endp := endp,
                  purpose := purpose, modified := modified, capped := false,
                  cancellation_reason := none },
        started := false, finished_at := none, total_blocked_time := 0,
        legs := legs, person := person }
      match tm.people[person.idx]? with
      | none => none
      | some p0 =>
        let sync : Person × List Event :=
          if p0.trips.isEmpty then
            match trip.info.start with
            | TripEndpoint.Bldg b =>
              ({ p0 with state := PersonState.Inside b },
               [Event.PersonEntersBuilding trip.person b])
            | TripEndpoint.Border _ loc =>
              match loc with
              | some l => ({ p0 with state := PersonState.OffMap },
                  [Event.PersonEntersRemoteBuilding trip.person l])
              | none => ({ p0 with state := PersonState.OffMap }, [])
          else (p0, [])
        let p := sync.1
        let check : Option Unit :=
          match p.trips.getLast? with
          | none => some ()
          | some t =>
            match tm.trips[t.idx]? with
            | none => none
            | some prev => if departure < prev.info.departure then none else some ()
        match check with
        | none => none
        | some _ =>
          some ({ tm with
            trips := tm.trips ++ [trip],
            people := tm.people.set person.idx { p with trips := p.trips ++ [id] },
            unfinished_trips := tm.unfinished_trips + 1,
            events := tm.events ++ sync.2 }, id)

/-- Embeds Trip::spawn_ped (trips.rs lines 1406-1452). Returns whether the
spawn succeeded together with the updated scheduler and event buffer;
none models the unreachable arm on a non-Walk head leg. -/
def Trip.spawnPed (self : Trip) (now : Time) (start : SidewalkSpot) (person : Person)
    (map : Map) (scheduler : List (Time × Command)) (events : List Event) :
    Option (Bool × List (Time × Command) × List Event) :=
  match self.legs[0]? with
  | some (TripLeg.Walk walk_to) =>
    let req : PathRequest := ⟨start.sidewalk_pos, walk_to.sidewalk_pos, PathConstraints.Pedestrian⟩
    match map.pathfind req with
    | none =>
      some (false, scheduler, events ++
        [Event.Alert (AlertLocation.Person self.person)
          "Cancelling because no path for the walking portion"])
    | some path =>
      some (true, scheduler ++
        [(now, mkSpawnPed person.ped person.ped_speed start walk_to path req self.id self.person)],
        events)
  | _ => none

/-- Embeds TripManager::cancel_unstarted_trip (trips.rs lines 731-736). -/
def cancelUnstartedTrip (id : TripID) (reason : String) (tm : TripManager) :
    Option TripManager :=
  match tm.trips[id.idx]? with
  | none => none
  | some trip0 =>
    let trip := { trip0 with info := { trip0.info with cancellation_reason := some reason } }
    some { tm with
      trips := tm.trips.set id.idx trip,
      unfinished_trips := tm.unfinished_trips - 1,
      events := tm.events ++ [Event.TripCancelled trip.id] }

mutual

/-- Embeds TripManager::cancel_trip (trips.rs lines 740-826); the fuel
argument bounds the mutual recursion through person_finished_trip. -/
def cancelTrip : Nat → Time → TripID → String → Option Vehicle → TripManager → Ctx →
    Option (TripManager × Ctx)
  | 0, _, _, _, _, _, _ => none
  | fuel+1, now, id, reason, abandoned_vehicle, tm0, ctx =>
    match tm0.trips[id.idx]? with
    | none => none
    | some trip0 =>
      let trip := { trip0 with info := { trip0.info with cancellation_reason := some reason } }
      let tm := { tm0 with
        trips := tm0.trips.set id.idx trip,
        unfinished_trips := tm0.unfinished_trips - 1,
        events := tm0.events ++ [Event.TripCancelled trip.id] }
      let person := trip.person
      match tm.people[person.idx]? with
      | none => none
      | some p =>
        let tm :=
          match p.state with
          | PersonState.Inside b =>
            { tm with events := tm.events ++ [Event.PersonLeavesBuilding person b] }
          | _ => tm
        let tm :=
          match trip.info.endp with
          | TripEndpoint.Bldg b =>
            { tm with events := tm.events ++ [Event.PersonEntersBuilding person b] }
          | TripEndpoint.Border i loc =>
            { tm with events := tm.events ++ [Event.PersonLeavesMap person none i loc] }
        let newState :=
          match trip.info.endp with
          | TripEndpoint.Bldg b => PersonState.Inside b
          | TripEndpoint.Border _ _ => PersonState.OffMap
        let tm := { tm with people := tm.people.set person.idx { p with state := newState } }
        match abandoned_vehicle with
        | some vehicle =>
          if vehicle.vehicle_type = VehicleType.Car then
            match trip.info.endp with
            | TripEndpoint.Bldg b =>
              let driving_lane := ctx.map.find_driving_lane_near_building b
              let spotFound :=
                Option.orElse
                  (((ctx.parking.getAllFreeSpots (Position.start driving_lane) vehicle b).head?).map
                    Prod.fst)
                  (fun _ => (ctx.parking.pathToFreeParkingSpot driving_lane vehicle b).map
                    (fun q => q.2.1))
              match spotFound with
              | some spot =>
                let tm := { tm with events := tm.events ++
                  [Event.Alert (AlertLocation.Person person)
                    "trip cancelled; the car was warped to a free spot"] }
                let parking := (ctx.parking.reserveSpot spot).addParkedCar
                  { vehicle := vehicle, spot := spot, parked_since := now }
                personFinishedTrip fuel now person tm { ctx with parking := parking }
              | none =>
                let tm := { tm with events := tm.events ++
                  [Event.Alert (AlertLocation.Person person)
                    "trip cancelled, but nowhere to warp the car"] }
                personFinishedTrip fuel now person tm ctx
            | _ => personFinishedTrip fuel now person tm ctx
          else personFinishedTrip fuel now person tm ctx
        | none =>
          match trip.legs[0]? with
          | none => none
          | some (TripLeg.Drive c _) =>
            match amLookup tm.active_trip_mode (AgentID.Car c) with
            | some t =>
              if t = trip.id then
                personFinishedTrip fuel now person
                  { tm with active_trip_mode := amRemove tm.active_trip_mode (AgentID.Car c) } ctx
              else none
            | none => personFinishedTrip fuel now person tm ctx
          | some _ => personFinishedTrip fuel now person tm ctx

/-- Embeds TripManager::person_finished_trip (trips.rs lines 964-980):
drains the oldest delayed trip, if any, by re-entering start_trip. -/
def personFinishedTrip : Nat → Time → PersonID → TripManager → Ctx →
    Option (TripManager × Ctx)
  | 0, _, _, _, _ => none
  | fuel+1, now, personId, tm, ctx =>
    match tm.people[personId.idx]? with
    | none => none
    | some p =>
      match p.delayed_trips with
      | [] => some (tm, ctx)
      | entry :: rest =>
        let tm := { tm with people := tm.people.set personId.idx { p with delayed_trips := rest } }
        startTrip fuel now entry.1 entry.2.1 entry.2.2.1 entry.2.2.2 tm ctx

/-- Embeds TripManager::start_trip (trips.rs lines 982-1319), including
the lazy pathfinding, the deferral of trips whose person is still busy,
and every TripSpec dispatch arm. -/
def startTrip : Nat → Time → TripID → TripSpec → Option PathRequest → Option Path →
    TripManager → Ctx → Option (TripManager × Ctx)
  | 0, _, _, _, _, _, _, _ => none
  | fuel+1, now, trip, spec, maybe_req, maybe_path0, tm, ctx =>
    match tm.trips[trip.idx]? with
    | none => none
    | some tr0 =>
      if tr0.info.cancellation_reason.isSome then none
      else
        let maybe_path :=
          if ¬tm.pathfinding_upfront ∧ maybe_path0 = none ∧ maybe_req.isSome then
            match maybe_req with
            | some req => ctx.map.pathfind req
            | none => maybe_path0
          else maybe_path0
        match tm.people[tr0.person.idx]? with
        | none => none
        | some p =>
          match p.state with
          | PersonState.Trip _ =>
            some ({ tm with
              people := tm.people.set tr0.person.idx { p with delayed_trips :=
                    p.delayed_trips ++ [(trip, spec, maybe_req, maybe_path)] },
              events := tm.events ++
                [Event.TripPhaseStarting trip p.id none TripPhaseType.DelayedStart] }, ctx)
          | _ =>
            let tr := { tr0 with started := true }
            let tm := { tm with trips := tm.trips.set trip.idx tr }
            match spec with
            | TripSpec.VehicleAppearing start_pos goal retry_if_no_room use_vehicle origin =>
              if p.state = PersonState.OffMap then
                let tm := { tm with events := tm.events ++
                  [Event.PersonEntersMap p.id (AgentID.Car use_vehicle)
                    (ctx.map.laneSrcI start_pos.lane) origin] }
                let tm := { tm with people := tm.people.set tr.person.idx { p with state := PersonState.Trip trip } }
                match p.vehicles.find? (fun v => decide (v.id = use_vehicle)) with
                | none => none
                | some vehicle =>
                  if (ctx.parking.lookupParkedCar vehicle.id).isSome then none
                  else
                    match maybe_req with
                    | none => none
                    | some req =>
                      let validated :=
                        match maybe_path with
                        | none => (none, tr.info.capped)
                        | some path => ctx.cap.validate_path req path now vehicle.id tr.info.capped
                      let tm := { tm with trips := tm.trips.set trip.idx { tr with info := { tr.info with capped := validated.2 } } }
                      match validated.1 with
                      | some path =>
                        some (tm, { ctx with scheduler := ctx.scheduler ++
                          [(now, Command.SpawnCar (CreateCar.forAppearing vehicle start_pos
                            (goal.makeRouter vehicle.id path) req trip p.id) retry_if_no_room)] })
                      | none =>
                        cancelTrip fuel now trip
                          "VehicleAppearing trip could not find the first path"
                          (some vehicle) tm ctx
              else none
            | TripSpec.NoRoomToSpawn _ use_vehicle error =>
              match p.vehicles.find? (fun v => decide (v.id = use_vehicle)) with
              | none => none
              | some vehicle =>
                cancelTrip fuel now trip ("could not spawn at border: " ++ error)
                  (some vehicle) tm ctx
            | TripSpec.UsingParkedCar car start_bldg =>
              if p.state = PersonState.Inside start_bldg then
                let tm := { tm with people := tm.people.set tr.person.idx { p with state := PersonState.Trip trip } }
                match ctx.parking.lookupParkedCar car with
                | some parked_car =>
                  let start := SidewalkSpot.building start_bldg ctx.map
                  let walking_goal :=
                    SidewalkSpot.parkingSpot parked_car.spot ctx.map ctx.parking
                  let req : PathRequest :=
                    ⟨start.sidewalk_pos, walking_goal.sidewalk_pos, PathConstraints.Pedestrian⟩
                  match ctx.map.pathfind req with
                  | some path =>
                    some (tm, { ctx with scheduler := ctx.scheduler ++
                      [(now, mkSpawnPed p.ped p.ped_speed start walking_goal path req trip p.id)] })
                  | none =>
                    cancelTrip fuel now trip
                      "UsingParkedCar trip could not find the walking path"
                      (some parked_car.vehicle) tm
                      { ctx with parking := ctx.parking.removeParkedCar parked_car }
                | none =>
                  cancelTrip fuel now trip
                    "should have the car parked somewhere, but it is unavailable"
                    none tm ctx
              else none
            | TripSpec.JustWalking start goal =>
              let expected : Option (PersonState × List Event) :=
                match start.connection with
                | SidewalkPOI.Building b => some (PersonState.Inside b, [])
                | SidewalkPOI.Border i loc => some (PersonState.OffMap,
                    [Event.PersonEntersMap p.id (AgentID.Pedestrian p.ped) i loc])
                | SidewalkPOI.SuddenlyAppear => some (PersonState.OffMap,
                    [Event.PersonEntersMap p.id (AgentID.Pedestrian p.ped)
                      (ctx.map.laneSrcI start.sidewalk_pos.lane) none])
                | _ => none
              match expected with
              | none => none
              | some st_evs =>
                if p.state = st_evs.1 then
                  let tm := { tm with events := tm.events ++ st_evs.2 }
                  let tm := { tm with people := tm.people.set tr.person.idx { p with state := PersonState.Trip trip } }
                  match maybe_req with
                  | none => none
                  | some req =>
                    match maybe_path with
                    | some path =>
                      some (tm, { ctx with scheduler := ctx.scheduler ++
                        [(now, mkSpawnPed p.ped p.ped_speed start goal path req trip p.id)] })
                    | none =>
                      cancelTrip fuel now trip
                        "JustWalking trip could not find the first path" none tm ctx
                else none
            | TripSpec.UsingBike start =>
              if p.state = PersonState.Inside start then
                let tm := { tm with people := tm.people.set tr.person.idx { p with state := PersonState.Trip trip } }
                match SidewalkSpot.bikeRack start ctx.map with
                | some walk_to =>
                  match maybe_req with
                  | none => none
                  | some req =>
                    match maybe_path with
                    | some path =>
                      some (tm, { ctx with scheduler := ctx.scheduler ++
                        [(now, mkSpawnPed p.ped p.ped_speed (SidewalkSpot.building start ctx.map)
                          walk_to path req trip p.id)] })
                    | none =>
                      cancelTrip fuel now trip
                        "UsingBike trip could not find the first path" none tm ctx
                | none =>
                  cancelTrip fuel now trip
                    "UsingBike trip could not find a way to start biking" none tm ctx
              else none
            | TripSpec.UsingTransit start stop1 =>
              let expected : Option (PersonState × List Event) :=
                match start.connection with
                | SidewalkPOI.Building b => some (PersonState.Inside b, [])
                | SidewalkPOI.Border i loc => some (PersonState.OffMap,
                    [Event.PersonEntersMap p.id (AgentID.Pedestrian p.ped) i loc])
                | SidewalkPOI.SuddenlyAppear => some (PersonState.OffMap,
                    [Event.PersonEntersMap p.id (AgentID.Pedestrian p.ped)
                      (ctx.map.laneSrcI start.sidewalk_pos.lane) none])
                | _ => none
              match expected with
              | none => none
              | some st_evs =>
                if p.state = st_evs.1 then
                  let tm := { tm with events := tm.events ++ st_evs.2 }
                  let tm := { tm with people := tm.people.set tr.person.idx { p with state := PersonState.Trip trip } }
                  let walk_to := SidewalkSpot.busStop stop1 ctx.map
                  match maybe_req with
                  | none => none
                  | some req =>
                    match maybe_path with
                    | some path =>
                      some (tm, { ctx with scheduler := ctx.scheduler ++
                        [(now, mkSpawnPed p.ped p.ped_speed start walk_to path req trip p.id)] })
                    | none =>
                      cancelTrip fuel now trip
                        "UsingTransit trip could not find the first path" none tm ctx
                else none
            | TripSpec.Remote trip_time from_ =>
              if p.state = PersonState.OffMap then
                let tm := { tm with people := tm.people.set tr.person.idx { p with state := PersonState.Trip trip } }
                let tm := { tm with events := tm.events ++
                  [Event.PersonLeavesRemoteBuilding p.id from_] }
                some ({ tm with events := tm.events ++
                  [Event.TripPhaseStarting trip p.id none TripPhaseType.Remote] },
                  { ctx with scheduler := ctx.scheduler ++
                    [(now + trip_time, Command.FinishRemoteTrip trip)] })
              else none

end

/-- Embeds TripManager::car_reached_parking_spot (trips.rs lines
191-244), including the finish-inside-destination special case and the
pedestrian spawn with its failing branch. -/
def carReachedParkingSpot (fuel : Nat) (now : Time) (car : CarID) (spot : ParkingSpot)
    (blocked_time : Duration) (tm0 : TripManager) (ctx : Ctx) : Option (TripManager × Ctx) :=
  match amLookup tm0.active_trip_mode (AgentID.Car car) with
  | none => none
  | some tid =>
    let tm := { tm0 with active_trip_mode := amRemove tm0.active_trip_mode (AgentID.Car car) }
    match tm.trips[tid.idx]? with
    | none => none
    | some trip0 =>
      let trip1 := { trip0 with total_blocked_time := trip0.total_blocked_time + blocked_time }
      match trip1.legs with
      | TripLeg.Drive c (DrivingGoal.ParkNear _) :: rest =>
        if c = car then
          let trip := { trip1 with legs := rest }
          match trip.legs[0]? with
          | some (TripLeg.Walk walk_to) =>
            let special : Option BuildingID :=
              match spot, walk_to.connection with
              | ParkingSpot.Offstreet b1 _, SidewalkPOI.Building b2 =>
                if b1 = b2 then some b1 else none
              | _, _ => none
            match special with
            | some b1 =>
              if trip.legs.length = 1 ∧ trip.finished_at = none then
                let trip := { trip with finished_at := some now }
                let tm := { tm with
                  trips := tm.trips.set tid.idx trip,
                  unfinished_trips := tm.unfinished_trips - 1,
                  events := tm.events ++ [Event.TripFinished trip.id trip.info.mode
                    (now - trip.info.departure) trip.total_blocked_time] }
                match tm.people[trip.person.idx]? with
                | none => none
                | some p =>
                  let tm := { tm with
                    people := tm.people.set trip.person.idx { p with state := PersonState.Inside b1 },
                    events := tm.events ++ [Event.PersonEntersBuilding trip.person b1] }
                  personFinishedTrip fuel now trip.person tm ctx
              else none
            | none =>
              match tm.people[trip.person.idx]? with
              | none => none
              | some p =>
                match trip.spawnPed now (SidewalkSpot.parkingSpot spot ctx.map ctx.parking) p
                  ctx.map ctx.scheduler tm.events with
                | none => none
                | some res =>
                  some ({ tm with
                    trips := tm.trips.set tid.idx trip,
                    events := res.2.2,
                    unfinished_trips :=
                      if res.1 then tm.unfinished_trips else tm.unfinished_trips - 1 },
                    { ctx with scheduler := res.2.1 })
          | _ => none
        else none
      | _ => none

/-- Embeds TripManager::ped_reached_bus_stop (trips.rs lines 482-532).
Returns the updated manager and the route to register a waiter for, or
none in the second component when the pedestrian boarded immediately. -/
def pedReachedBusStop (now : Time) (ped : PedestrianID) (stop : BusStopID)
    (blocked_time : Duration) (tm0 : TripManager) (ctx : Ctx) (transit : TransitSimState) :
    Option (TripManager × Option BusRouteID) :=
  match amLookup tm0.active_trip_mode (AgentID.Pedestrian ped) with
  | none => none
  | some tid =>
    match tm0.trips[tid.idx]? with
    | none => none
    | some trip0 =>
      let trip := { trip0 with total_blocked_time := trip0.total_blocked_time + blocked_time }
      match trip.legs with
      | TripLeg.Walk spot :: TripLeg.RideBus route maybe_stop2 :: rest =>
        if spot = SidewalkSpot.busStop stop ctx.map then
          let tm := { tm0 with events := tm0.events ++
            [Event.TripPhaseStarting trip.id trip.person none
              (TripPhaseType.WaitingForBus route stop)] }
          match transit.pedWaitingForBus now ped trip.id trip.person stop route maybe_stop2 with
          | some bus =>
            let trip := { trip with legs := TripLeg.RideBus route maybe_stop2 :: rest }
            match tm.people[trip.person.idx]? with
            | none => none
            | some p =>
              some ({ tm with
                trips := tm.trips.set tid.idx trip,
                active_trip_mode :=
                  amInsert (amRemove tm.active_trip_mode (AgentID.Pedestrian ped))
                    (AgentID.BusPassenger trip.person bus) trip.id,
                people := tm.people.set trip.person.idx { p with on_bus := some bus } }, none)
          | none =>
            some ({ tm with trips := tm.trips.set tid.idx trip }, some route)
        else none
      | _ => none

/-- Helper of trip_to_agent: Ok when the expected agent is bound to this
trip, ModeChange otherwise. -/
def activeResult (tm : TripManager) (id : TripID) (a : AgentID) : TripResult :=
  if amLookup tm.active_trip_mode a = some id then TripResult.Ok a else TripResult.ModeChange

/-- Embeds TripManager::trip_to_agent (trips.rs lines 841-872). -/
def tripToAgent (tm : TripManager) (id : TripID) : Option TripResult :=
  if tm.trips.length ≤ id.idx then some TripResult.TripDoesntExist
  else
    match tm.trips[id.idx]? with
    | none => none
    | some trip =>
      if trip.finished_at.isSome then some TripResult.TripDone
      else if trip.info.cancellation_reason.isSome then some TripResult.TripCancelled
      else if trip.started = false then some TripResult.TripNotStarted
      else
        match tm.people[trip.person.idx]? with
        | none => none
        | some person =>
          match trip.legs[0]? with
          | some (TripLeg.Walk _) => some (activeResult tm id (AgentID.Pedestrian person.ped))
          | some (TripLeg.Drive c _) => some (activeResult tm id (AgentID.Car c))
          | some (TripLeg.RideBus _ _) =>
            match person.on_bus with
            | some bus => some (activeResult tm id (AgentID.BusPassenger person.id bus))
            | none => none
          | some (TripLeg.Remote _) => some TripResult.RemoteTrip
          | none => none

/-- The number of trips with neither finished_at nor cancellation_reason
set (the reference value of the unfinished_trips counter). -/
def unfinishedCount (tm : TripManager) : Nat :=
  (tm.trips.filter
    (fun t => decide (t.finished_at = none ∧ t.info.cancellation_reason = none))).length

/-- Counts Alert events in an event buffer. -/
def countAlerts (events : List Event) : Nat :=
  (events.filter (fun e => match e with | Event.Alert _ _ => true | _ => false)).length

/-- Departure time of a trip id under a manager, defaulting to 0 for a
dangling id. -/
def depOf (tm : TripManager) (t : TripID) : Time :=
  ((tm.trips[t.idx]?).map (fun tr => tr.info.departure)).getD 0

/-- A trip id list is sorted non-decreasing by departure. -/
def sortedTrips (tm : TripManager) (ts : List TripID) : Prop :=
  List.Chain' (fun a b => depOf tm a ≤ depOf tm b) ts

/-- The end-endpoint derivation exactly as claim C2 words it, stated on
the last leg alone. -/
def claimedEnd (map : Map) (leg : TripLeg) : Option TripEndpoint :=
  match leg with
  | TripLeg.Walk spot =>
    match spot.connection with
    | SidewalkPOI.Building b => some (TripEndpoint.Bldg b)
    | SidewalkPOI.Border i loc => some (TripEndpoint.Border i loc)
    | _ => none
  | TripLeg.Drive _ (DrivingGoal.ParkNear b) => some (TripEndpoint.Bldg b)
  | TripLeg.Drive _ (DrivingGoal.Border i _ loc) => some (TripEndpoint.Border i loc)
  | TripLeg.RideBus r none =>
    (map.busRouteEndBorder r).map (fun l => TripEndpoint.Border (map.laneDstI l) none)
  | TripLeg.RideBus _ (some _) => none
  | TripLeg.Remote dest =>
    map.all_incoming_borders.head?.map (fun i => TripEndpoint.Border i (some dest))

/-- A fixed trip info used by the concrete states below. -/
def cInfo : TripInfo :=
  { departure := 0, mode := TripMode.Drive, start := TripEndpoint.Bldg ⟨0⟩,
    endp := TripEndpoint.Bldg ⟨1⟩, purpose := ⟨0⟩, modified := false, capped := false,
    cancellation_reason := none }

/-- A concrete car used by the concrete states below. -/
def cCar : CarID := ⟨0, VehicleType.Car⟩

/-- A concrete vehicle record for cCar. -/
def cVehicle : Vehicle :=
  { id := cCar, vehicle_type := VehicleType.Car, length := 4, owner := some ⟨0⟩ }

/-- A concrete map whose pathfinder always fails. -/
def cMapNoPath : Map :=
  { all_incoming_borders := [⟨9⟩],
    busRouteEndBorder := fun _ => some ⟨4⟩,
    laneDstI := fun l => ⟨l.idx + 100⟩,
    laneSrcI := fun l => ⟨l.idx + 200⟩,
    pathfind := fun _ => none,
    bldgSidewalkPos := fun b => ⟨⟨b.idx⟩, 1⟩,
    busStopSidewalkPos := fun s => ⟨⟨s.idx + 50⟩, 2⟩,
    find_driving_lane_near_building := fun b => ⟨b.idx + 10⟩,
    bikeRackSpot := fun _ => none }

/-- A concrete map whose pathfinder always succeeds. -/
def cMapPath : Map := { cMapNoPath with pathfind := fun _ => some ⟨1⟩ }

/-- A concrete parking world with one free on-street spot near every
building. -/
def cParking : ParkingSim :=
  { spotSidewalkPos := fun _ => ⟨⟨0⟩, 0⟩,
    lookupParkedCar := fun _ => none,
    getAllFreeSpots := fun _ _ _ => [(ParkingSpot.Onstreet ⟨10⟩ 0, ⟨⟨10⟩, 0⟩)],
    pathToFreeParkingSpot := fun _ _ _ => none,
    reserved_spots := [], parked_cars := [], removed_cars := [] }

/-- A concrete parking world with no free spot anywhere. -/
def cParkingNoSpots : ParkingSim :=
  { cParking with getAllFreeSpots := (fun _ _ _ => []) }

/-- A congestion cap that accepts every path unchanged. -/
def cCap : CapSim := { validate_path := fun _ p _ _ capped => (some p, capped) }

/-- Context with a failing pathfinder. -/
def cCtxNoPath : Ctx := { map := cMapNoPath, parking := cParking, scheduler := [], cap := cCap }

/-- Context with a succeeding pathfinder. -/
def cCtxPath : Ctx := { map := cMapPath, parking := cParking, scheduler := [], cap := cCap }

/-- Concrete state for claim C1: one active driving trip whose next leg
walks to building 1, person 0 driving cCar. -/
def c1Trip : Trip :=
  { id := ⟨0⟩, info := cInfo, started := true, finished_at := none,
    total_blocked_time := 0,
    legs := [TripLeg.Drive cCar (DrivingGoal.ParkNear ⟨1⟩),
             TripLeg.Walk ⟨SidewalkPOI.Building ⟨1⟩, ⟨⟨0⟩, 1⟩⟩],
    person := ⟨0⟩ }

/-- Concrete person 0 for claim C1. -/
def c1Person : Person :=
  { id := ⟨0⟩, orig_id := none, trips := [⟨0⟩], state := PersonState.Trip ⟨0⟩,
    ped := ⟨0⟩, ped_speed := 1, vehicles := [cVehicle], delayed_trips := [],
    on_bus := none }

/-- Concrete manager for claim C1. -/
def c1Tm : TripManager :=
  { trips := [c1Trip], people := [c1Person],
    active_trip_mode := [(AgentID.Car cCar, ⟨0⟩)], unfinished_trips := 1,
    pathfinding_upfront := true, car_id_counter := 1, events := [] }



/-- A delayed-trip entry used by the concrete states below. -/
def c4Entry : DelayedTrip := (⟨1⟩, TripSpec.Remote 5 ⟨0⟩, none, none)

/-- Trip 0 of the C4 fixture: started and active. -/
def c4TripA : Trip :=
  { id := ⟨0⟩, info := cInfo, started := true, finished_at := none,
    total_blocked_time := 0, legs := [TripLeg.Remote ⟨0⟩], person := ⟨0⟩ }

/-- Trip 1 of the C4 fixture: not yet started. -/
def c4TripB : Trip :=
  { id := ⟨1⟩, info := cInfo, started := false, finished_at := none,
    total_blocked_time := 0, legs := [TripLeg.Remote ⟨0⟩], person := ⟨0⟩ }

/-- Person 0 of the C4 fixture: busy with trip 0, one delayed trip queued. -/
def c4Person : Person :=
  { id := ⟨0⟩, orig_id := none, trips := [⟨0⟩, ⟨1⟩], state := PersonState.Trip ⟨0⟩,
    ped := ⟨0⟩, ped_speed := 1, vehicles := [cVehicle], delayed_trips := [c4Entry],
    on_bus := none }

/-- Concrete manager for claims C3 and C4. -/
def c4Tm : TripManager :=
  { trips := [c4TripA, c4TripB], people := [c4Person], active_trip_mode := [],
    unfinished_trips := 2, pathfinding_upfront := true, car_id_counter := 1,
    events := [] }

/-- A finished trip for the C10 fixture. -/
def c10Trip : Trip :=
  { id := ⟨0⟩, info := cInfo, started := true, finished_at := some 4,
    total_blocked_time := 0, legs := [], person := ⟨0⟩ }

/-- Concrete manager for claim C10: one finished trip. -/
def c10Tm : TripManager :=
  { trips := [c10Trip], people := [c1Person], active_trip_mode := [],
    unfinished_trips := 0, pathfinding_upfront := true, car_id_counter := 1,
    events := [] }

/-- A concrete bus for the C6 fixture. -/
def cBus : CarID := ⟨5, VehicleType.Bus⟩

/-- A transit state with a bus present right now. -/
def cTransitYes : TransitSimState := ⟨fun _ _ _ _ _ _ _ => some cBus⟩

/-- A transit state with no bus present. -/
def cTransitNo : TransitSimState := ⟨fun _ _ _ _ _ _ _ => none⟩

/-- Concrete trip for claim C6: walk to stop 2, ride route 7 to stop 3,
walk to building 4. -/
def c6Trip : Trip :=
  { id := ⟨0⟩, info := cInfo, started := true, finished_at := none,
    total_blocked_time := 0,
    legs := [TripLeg.Walk (SidewalkSpot.busStop ⟨2⟩ cMapPath),
             TripLeg.RideBus ⟨7⟩ (some ⟨3⟩),
             TripLeg.Walk ⟨SidewalkPOI.Building ⟨4⟩, ⟨⟨4⟩, 1⟩⟩],
    person := ⟨0⟩ }

/-- Concrete manager for claim C6. -/
def c6Tm : TripManager :=
  { trips := [c6Trip], people := [c1Person],
    active_trip_mode := [(AgentID.Pedestrian ⟨0⟩, ⟨0⟩)], unfinished_trips := 1,
    pathfinding_upfront := true, car_id_counter := 1, events := [] }

/-- The trip record new_trip constructs, written out once for reuse in
statements about new_trip. -/
def mkNewTrip (tm : TripManager) (person : PersonID) (departure : Time)
    (start : TripEndpoint) (mode : TripMode) (purpose : TripPurpose) (modified : Bool)
    (legs : List TripLeg) (e : TripEndpoint) : Trip :=
  ⟨⟨tm.trips.length⟩, ⟨departure, mode, start, e, purpose, modified, false, none⟩,
    false, none, 0, legs, person⟩

/-- A fresh person with no trips yet, for the C2 and C8 fixtures. -/
def c2Person : Person :=
  { id := ⟨0⟩, orig_id := none, trips := [], state := PersonState.OffMap,
    ped := ⟨0⟩, ped_speed := 1, vehicles := [], delayed_trips := [], on_bus := none }

/-- Concrete manager for claim C2: no trips yet. -/
def c2Tm : TripManager :=
  { trips := [], people := [c2Person], active_trip_mode := [], unfinished_trips := 0,
    pathfinding_upfront := true, car_id_counter := 0, events := [] }

/-- Concrete legs for claim C2: one walk leg to building 7. -/
def c2Legs : List TripLeg := [TripLeg.Walk ⟨SidewalkPOI.Building ⟨7⟩, ⟨⟨0⟩, 1⟩⟩]

/-- The trip info new_trip produces on the C2 fixture. -/
def c2Info : TripInfo :=
  { departure := 5, mode := TripMode.Walk, start := TripEndpoint.Bldg ⟨3⟩,
    endp := TripEndpoint.Bldg ⟨7⟩, purpose := ⟨0⟩, modified := false, capped := false,
    cancellation_reason := none }

/-- The trip new_trip produces on the C2 fixture. -/
def c2Trip : Trip :=
  { id := ⟨0⟩, info := c2Info, started := false, finished_at := none,
    total_blocked_time := 0, legs := c2Legs, person := ⟨0⟩ }

/-- The manager new_trip produces on the C2 fixture. -/
def c2Result : TripManager :=
  { trips := [c2Trip],
    people := [{ c2Person with trips := [⟨0⟩], state := PersonState.Inside ⟨3⟩ }],
    active_trip_mode := [], unfinished_trips := 1, pathfinding_upfront := true,
    car_id_counter := 0, events := [Event.PersonEntersBuilding ⟨0⟩ ⟨3⟩] }

/-- An existing trip with departure 5 for the C8 fixture. -/
def c8Trip0 : Trip :=
  { id := ⟨0⟩, info := c2Info, started := true, finished_at := none,
    total_blocked_time := 0, legs := [TripLeg.Remote ⟨0⟩], person := ⟨0⟩ }

/-- Person 0 of the C8 fixture, already owning trip 0. -/
def c8Person : Person :=
  { c2Person with trips := [⟨0⟩], state := PersonState.Inside ⟨3⟩ }

/-- Concrete manager for claim C8: one prior trip with departure 5. -/
def c8Tm : TripManager :=
  { trips := [c8Trip0], people := [c8Person], active_trip_mode := [],
    unfinished_trips := 1, pathfinding_upfront := true, car_id_counter := 0,
    events := [] }

/-- Concrete driving trip for claim C7 whose destination is building 1. -/
def c7Trip : Trip :=
  { id := ⟨0⟩, info := cInfo, started := true, finished_at := none,
    total_blocked_time := 0, legs := [TripLeg.Drive cCar (DrivingGoal.ParkNear ⟨1⟩)],
    person := ⟨0⟩ }

/-- Concrete manager for claim C7. -/
def c7Tm : TripManager :=
  { trips := [c7Trip], people := [c1Person],
    active_trip_mode := [(AgentID.Car cCar, ⟨0⟩)], unfinished_trips := 1,
    pathfinding_upfront := true, car_id_counter := 1, events := [] }

/-- Context whose parking world has no free spot anywhere. -/
def cCtxNoSpots : Ctx :=
  { map := cMapPath, parking := cParkingNoSpots, scheduler := [], cap := cCap }

/-- Claim C1 (refuted: code bug). The claim states that after every
handler unfinished_trips equals the number of trips with neither
finished_at nor cancellation_reason, in particular after a handler whose
pedestrian-spawning step fails. On the concrete state c1Tm the invariant
holds before the call (1 trip, counter 1), but car_reached_parking_spot
with a failing walking pathfinder decrements the counter to 0 while
leaving the trip with neither finished_at nor cancellation_reason set,
so the count stays 1 and the invariant is broken. -/
theorem c1_unfinished_counter_violated :
    c1Tm.unfinished_trips = unfinishedCount c1Tm ∧
    (carReachedParkingSpot 1 10 cCar (ParkingSpot.Onstreet ⟨5⟩ 0) 0 c1Tm cCtxNoPath).map
      (fun r => (r.1.unfinished_trips, unfinishedCount r.1,
        r.1.trips.map (fun t => (t.finished_at, t.info.cancellation_reason)))) =
      some (0, 1, [(none, none)]) := by decide

/-- Claim C9: cancel_unstarted_trip decrements unfinished_trips, sets the
cancellation reason, and appends exactly one TripCancelled event; the
people, the active-agent registry, the other trips, and the legs and
started flag of this trip are unchanged. -/
theorem cancel_unstarted_trip_frame (id : TripID) (reason : String) (tm : TripManager)
    (tr : Trip) (h : tm.trips[id.idx]? = some tr) :
    cancelUnstartedTrip id reason tm = some { tm with
      trips := tm.trips.set id.idx
        { tr with info := { tr.info with cancellation_reason := some reason } },
      unfinished_trips := tm.unfinished_trips - 1,
      events := tm.events ++ [Event.TripCancelled tr.id] } := by
  simp [cancelUnstartedTrip, h]

/-- Witness for C9 at a concrete input. -/
theorem cancel_unstarted_trip_frame_witness :
    cancelUnstartedTrip ⟨0⟩ "stop" c1Tm = some { c1Tm with
      trips := c1Tm.trips.set (TripID.mk 0).idx
        { c1Trip with info := { c1Trip.info with cancellation_reason := some "stop" } },
      unfinished_trips := c1Tm.unfinished_trips - 1,
      events := c1Tm.events ++ [Event.TripCancelled c1Trip.id] } :=
  cancel_unstarted_trip_frame ⟨0⟩ "stop" c1Tm c1Trip rfl

/-- Claim C4 counterexample. The claim states the delayed-trip drain also
happens after cancel_unstarted_trip; on the concrete state c4Tm, where
person 0 has one queued delayed trip, cancel_unstarted_trip leaves the
queue untouched (still one entry) and start_trip is not re-entered. -/
theorem c4_cancel_unstarted_does_not_drain :
    (cancelUnstartedTrip ⟨1⟩ "capped" c4Tm).map
      (fun tm2 => tm2.people.map (fun q => q.delayed_trips)) = some [[c4Entry]] := by
  rfl

/-- Claim C4 as amended: after a finish or a cancel_trip, the drain
person_finished_trip removes the first (oldest) entry of the person
delayed_trips queue and re-enters start_trip with its stored spec, path
request and path; cancel_unstarted_trip, by contrast, leaves every
delayed-trips queue unchanged and does not re-enter start_trip. -/
theorem person_finished_trip_drains_fifo (fuel : Nat) (now : Time) (pid : PersonID)
    (tm : TripManager) (ctx : Ctx) (p : Person) (entry : DelayedTrip)
    (rest : List DelayedTrip) (id : TripID) (reason : String) (tr : Trip)
    (hp : tm.people[pid.idx]? = some p)
    (hq : p.delayed_trips = entry :: rest)
    (hid : tm.trips[id.idx]? = some tr) :
    personFinishedTrip (fuel+1) now pid tm ctx =
      startTrip fuel now entry.1 entry.2.1 entry.2.2.1 entry.2.2.2 { tm with
        people := tm.people.set pid.idx { p with delayed_trips := rest } } ctx ∧
    (cancelUnstartedTrip id reason tm).map
      (fun tm2 => tm2.people.map (fun q => q.delayed_trips))
      = some (tm.people.map (fun q => q.delayed_trips)) := by
  constructor
  · simp [personFinishedTrip, hp, hq]
  · simp [cancelUnstartedTrip, hid]

/-- Witness for the amended C4 at a concrete input. -/
theorem person_finished_trip_drains_fifo_witness :
    (personFinishedTrip 2 3 ⟨0⟩ c4Tm cCtxPath =
      startTrip 1 3 c4Entry.1 c4Entry.2.1 c4Entry.2.2.1 c4Entry.2.2.2 { c4Tm with
        people := c4Tm.people.set (PersonID.mk 0).idx
          { c4Person with delayed_trips := [] } } cCtxPath) ∧
    (cancelUnstartedTrip ⟨1⟩ "why" c4Tm).map
      (fun tm2 => tm2.people.map (fun q => q.delayed_trips))
      = some (c4Tm.people.map (fun q => q.delayed_trips)) :=
  person_finished_trip_drains_fifo 1 3 ⟨0⟩ c4Tm cCtxPath c4Person c4Entry [] ⟨1⟩ "why"
    c4TripB rfl rfl rfl

/-- Claim C3: when start_trip is called for a non-cancelled trip whose
person is still in Trip state, the trip is deferred: the entry with the
spec, the path request and the (possibly lazily resolved) path is
appended to the delayed_trips of the person, a TripPhaseStarting DelayedStart
event is emitted, the trips list (hence the started flag) is unchanged
and no scheduler command is issued (the context is returned as is). -/
theorem start_trip_defers (fuel : Nat) (now : Time) (trip : TripID) (spec : TripSpec)
    (maybe_req : Option PathRequest) (maybe_path : Option Path) (tm : TripManager)
    (ctx : Ctx) (tr : Trip) (p : Person) (t0 : TripID)
    (htr : tm.trips[trip.idx]? = some tr)
    (hnc : tr.info.cancellation_reason = none)
    (hp : tm.people[tr.person.idx]? = some p)
    (hs : p.state = PersonState.Trip t0) :
    startTrip (fuel+1) now trip spec maybe_req maybe_path tm ctx = some ({ tm with
      people := tm.people.set tr.person.idx { p with delayed_trips :=
        p.delayed_trips ++ [(trip, spec, maybe_req,
          if ¬tm.pathfinding_upfront ∧ maybe_path = none ∧ maybe_req.isSome then
            match maybe_req with
            | some req => ctx.map.pathfind req
            | none => maybe_path
          else maybe_path)] },
      events := tm.events ++
        [Event.TripPhaseStarting trip p.id none TripPhaseType.DelayedStart] }, ctx) := by
  simp [startTrip, htr, hnc, hp, hs]

/-- Witness for C3 at a concrete input. -/
theorem start_trip_defers_witness :
    startTrip 1 3 ⟨1⟩ (TripSpec.Remote 5 ⟨0⟩) none none c4Tm cCtxPath = some ({ c4Tm with
      people := c4Tm.people.set c4TripB.person.idx { c4Person with delayed_trips :=
        c4Person.delayed_trips ++ [(⟨1⟩, TripSpec.Remote 5 ⟨0⟩, none, none)] },
      events := c4Tm.events ++
        [Event.TripPhaseStarting ⟨1⟩ c4Person.id none TripPhaseType.DelayedStart] },
      cCtxPath) :=
  start_trip_defers 0 3 ⟨1⟩ (TripSpec.Remote 5 ⟨0⟩) none none c4Tm cCtxPath c4TripB
    c4Person ⟨0⟩ rfl rfl rfl rfl

/-- Claim C10: trip_to_agent answers TripDoesntExist exactly for an
out-of-range id (and never panics there), and for an in-range trip the
TripDone check takes precedence over TripCancelled, which takes
precedence over TripNotStarted. -/
theorem trip_to_agent_bounds (tm : TripManager) (id : TripID) :
    ((tripToAgent tm id = some TripResult.TripDoesntExist) ↔ tm.trips.length ≤ id.idx) ∧
    (∀ tr, tm.trips[id.idx]? = some tr →
      (tr.finished_at.isSome = true → tripToAgent tm id = some TripResult.TripDone) ∧
      (tr.finished_at = none → tr.info.cancellation_reason.isSome = true →
        tripToAgent tm id = some TripResult.TripCancelled) ∧
      (tr.finished_at = none → tr.info.cancellation_reason = none → tr.started = false →
        tripToAgent tm id = some TripResult.TripNotStarted)) := by
  constructor
  · by_cases hle : tm.trips.length ≤ id.idx
    · simp [tripToAgent, hle]
    · push_neg at hle
      obtain ⟨tr0, htr0⟩ : ∃ tr0, tm.trips[id.idx]? = some tr0 :=
        ⟨_, List.getElem?_eq_getElem hle⟩
      constructor
      · intro h
        exfalso
        unfold tripToAgent at h
        rw [if_neg (by omega)] at h
        rw [htr0] at h
        unfold activeResult at h
        repeat (any_goals (split at h))
        all_goals simp_all
      · intro h
        omega
  · intro tr htr
    have hlt : id.idx < tm.trips.length := by
      rcases List.getElem?_eq_some.mp htr with ⟨h, _⟩
      exact h
    refine ⟨?_, ?_, ?_⟩
    · intro hfin
      simp [tripToAgent, Nat.not_le.mpr hlt, htr, hfin]
    · intro hfin hcanc
      simp [tripToAgent, Nat.not_le.mpr hlt, htr, hfin, hcanc]
    · intro hfin hcanc hstart
      simp [tripToAgent, Nat.not_le.mpr hlt, htr, hfin, hcanc, hstart]

/-- Witness for C10 at concrete inputs. -/
theorem trip_to_agent_bounds_witness :
    tripToAgent c10Tm ⟨0⟩ = some TripResult.TripDone ∧
    tripToAgent c10Tm ⟨3⟩ = some TripResult.TripDoesntExist :=
  ⟨((trip_to_agent_bounds c10Tm ⟨0⟩).2 c10Trip rfl).1 rfl,
    (trip_to_agent_bounds c10Tm ⟨3⟩).1.mpr (by decide)⟩

/-- Claim C5: when a car reaches an off-street spot at building b and the
next leg is a walk to that same building b, the trip finishes
immediately: finished_at is set to now, unfinished_trips is decremented,
a TripFinished and a PersonEntersBuilding event are emitted, the person
state becomes Inside b, person_finished_trip runs, and no pedestrian is
spawned (the scheduler in the context is untouched by the handler
itself). -/
theorem car_reached_parking_spot_finishes_inside (fuel : Nat) (now : Time) (car : CarID)
    (b : BuildingID) (n : Nat) (blocked : Duration) (tm : TripManager) (ctx : Ctx)
    (tid : TripID) (tr : Trip) (w : SidewalkSpot) (b0 : BuildingID) (p : Person)
    (hlook : amLookup tm.active_trip_mode (AgentID.Car car) = some tid)
    (htr : tm.trips[tid.idx]? = some tr)
    (hlegs : tr.legs = [TripLeg.Drive car (DrivingGoal.ParkNear b0), TripLeg.Walk w])
    (hw : w.connection = SidewalkPOI.Building b)
    (hfin : tr.finished_at = none)
    (hp : tm.people[tr.person.idx]? = some p) :
    carReachedParkingSpot fuel now car (ParkingSpot.Offstreet b n) blocked tm ctx =
      personFinishedTrip fuel now tr.person { tm with
        active_trip_mode := amRemove tm.active_trip_mode (AgentID.Car car),
        trips := tm.trips.set tid.idx { tr with
          total_blocked_time := tr.total_blocked_time + blocked,
          legs := [TripLeg.Walk w], finished_at := some now },
        unfinished_trips := tm.unfinished_trips - 1,
        people := tm.people.set tr.person.idx { p with state := PersonState.Inside b },
        events := tm.events ++
          [Event.TripFinished tr.id tr.info.mode (now - tr.info.departure)
            (tr.total_blocked_time + blocked),
           Event.PersonEntersBuilding tr.person b] } ctx := by
  simp [carReachedParkingSpot, hlook, htr, hlegs, hw, hfin, hp]

/-- Witness for C5 at a concrete input. -/
theorem car_reached_parking_spot_finishes_inside_witness :
    carReachedParkingSpot 1 10 cCar (ParkingSpot.Offstreet ⟨1⟩ 0) 0 c1Tm cCtxNoPath =
      personFinishedTrip 1 10 c1Trip.person { c1Tm with
        active_trip_mode := amRemove c1Tm.active_trip_mode (AgentID.Car cCar),
        trips := c1Tm.trips.set (TripID.mk 0).idx { c1Trip with
          total_blocked_time := c1Trip.total_blocked_time + 0,
          legs := [TripLeg.Walk ⟨SidewalkPOI.Building ⟨1⟩, ⟨⟨0⟩, 1⟩⟩],
          finished_at := some 10 },
        unfinished_trips := c1Tm.unfinished_trips - 1,
        people := c1Tm.people.set c1Trip.person.idx
          { c1Person with state := PersonState.Inside ⟨1⟩ },
        events := c1Tm.events ++
          [Event.TripFinished c1Trip.id c1Trip.info.mode (10 - c1Trip.info.departure)
            (c1Trip.total_blocked_time + 0),
           Event.PersonEntersBuilding c1Trip.person ⟨1⟩] } cCtxNoPath :=
  car_reached_parking_spot_finishes_inside 1 10 cCar ⟨1⟩ 0 0 c1Tm cCtxNoPath ⟨0⟩ c1Trip
    ⟨SidewalkPOI.Building ⟨1⟩, ⟨⟨0⟩, 1⟩⟩ ⟨1⟩ c1Person rfl rfl rfl rfl rfl rfl

/-- Claim C6: ped_reached_bus_stop emits the WaitingForBus phase event
before popping anything; when transit has a bus now it pops the walk leg,
replaces the Pedestrian binding by a BusPassenger binding to the same
trip, sets on_bus and returns none; when there is no bus it returns some
route and the walk leg stays at the head. -/
theorem ped_reached_bus_stop_behavior (now : Time) (ped : PedestrianID) (stop : BusStopID)
    (blocked : Duration) (tm : TripManager) (ctx : Ctx) (transit : TransitSimState)
    (tid : TripID) (tr : Trip) (route : BusRouteID) (maybe_stop2 : Option BusStopID)
    (rest : List TripLeg) (p : Person)
    (hlook : amLookup tm.active_trip_mode (AgentID.Pedestrian ped) = some tid)
    (htr : tm.trips[tid.idx]? = some tr)
    (hlegs : tr.legs = TripLeg.Walk (SidewalkSpot.busStop stop ctx.map) ::
      TripLeg.RideBus route maybe_stop2 :: rest)
    (hp : tm.people[tr.person.idx]? = some p) :
    (∀ bus, transit.pedWaitingForBus now ped tr.id tr.person stop route maybe_stop2 = some bus →
      pedReachedBusStop now ped stop blocked tm ctx transit = some ({ tm with
        trips := tm.trips.set tid.idx { tr with
          total_blocked_time := tr.total_blocked_time + blocked,
          legs := TripLeg.RideBus route maybe_stop2 :: rest },
        active_trip_mode := amInsert (amRemove tm.active_trip_mode (AgentID.Pedestrian ped))
          (AgentID.BusPassenger tr.person bus) tr.id,
        people := tm.people.set tr.person.idx { p with on_bus := some bus },
        events := tm.events ++ [Event.TripPhaseStarting tr.id tr.person none
          (TripPhaseType.WaitingForBus route stop)] }, none)) ∧
    (transit.pedWaitingForBus now ped tr.id tr.person stop route maybe_stop2 = none →
      pedReachedBusStop now ped stop blocked tm ctx transit = some ({ tm with
        trips := tm.trips.set tid.idx
          { tr with total_blocked_time := tr.total_blocked_time + blocked },
        events := tm.events ++ [Event.TripPhaseStarting tr.id tr.person none
          (TripPhaseType.WaitingForBus route stop)] }, some route)) := by
  constructor
  · intro bus hbus
    simp [pedReachedBusStop, hlook, htr, hlegs, hbus, hp]
  · intro hbus
    simp [pedReachedBusStop, hlook, htr, hlegs, hbus]

/-- Witness for C6 at a concrete input (bus present). -/
theorem ped_reached_bus_stop_behavior_witness :
    pedReachedBusStop 4 ⟨0⟩ ⟨2⟩ 1 c6Tm cCtxPath cTransitYes = some ({ c6Tm with
      trips := c6Tm.trips.set (TripID.mk 0).idx { c6Trip with
        total_blocked_time := c6Trip.total_blocked_time + 1,
        legs := TripLeg.RideBus ⟨7⟩ (some ⟨3⟩) ::
          [TripLeg.Walk ⟨SidewalkPOI.Building ⟨4⟩, ⟨⟨4⟩, 1⟩⟩] },
      active_trip_mode := amInsert (amRemove c6Tm.active_trip_mode (AgentID.Pedestrian ⟨0⟩))
        (AgentID.BusPassenger c6Trip.person cBus) c6Trip.id,
      people := c6Tm.people.set c6Trip.person.idx { c1Person with on_bus := some cBus },
      events := c6Tm.events ++ [Event.TripPhaseStarting c6Trip.id c6Trip.person none
        (TripPhaseType.WaitingForBus ⟨7⟩ ⟨2⟩)] }, none) :=
  (ped_reached_bus_stop_behavior 4 ⟨0⟩ ⟨2⟩ 1 c6Tm cCtxPath cTransitYes ⟨0⟩ c6Trip ⟨7⟩
    (some ⟨3⟩) [TripLeg.Walk ⟨SidewalkPOI.Building ⟨4⟩, ⟨⟨4⟩, 1⟩⟩] c1Person
    rfl rfl rfl rfl).1 cBus rfl

/-- Helper: the embedded end derivation of new_trip agrees with the claim
C2 wording applied to the last leg. -/
theorem tripEndFromLegs_eq_claimedEnd (map : Map) (legs : List TripLeg) (last : TripLeg)
    (h : legs.getLast? = some last) : tripEndFromLegs map legs = claimedEnd map last := by
  unfold tripEndFromLegs claimedEnd
  rw [h]
  cases last with
  | Walk spot => rfl
  | Drive c goal => cases goal <;> rfl
  | RideBus r m => cases m <;> rfl
  | Remote d => rfl

/-- Claim C2: every successful new_trip call derives the end endpoint of
the new trip from the last leg as described: Walk from its sidewalk POI,
Drive from its goal, RideBus with no second stop from the end border of
the route, Remote from border index 0 of all_incoming_borders with the
location attached. -/
theorem new_trip_end_derivation (person : PersonID) (departure : Time)
    (start : TripEndpoint) (mode : TripMode) (purpose : TripPurpose) (modified : Bool)
    (legs : List TripLeg) (map : Map) (tm : TripManager) (tm2 : TripManager) (id : TripID)
    (last : TripLeg)
    (hlast : legs.getLast? = some last)
    (h : newTrip person departure start mode purpose modified legs map tm = some (tm2, id)) :
    tm2.trips[id.idx]?.map (fun t => t.info.endp) = claimedEnd map last := by
  have hne : legs.isEmpty = false := by
    cases legs
    · simp at hlast
    · rfl
  unfold newTrip at h
  rw [hne] at h
  simp only [Bool.false_eq_true, if_false] at h
  split at h
  next => simp at h
  next e heq =>
    split at h
    next => simp at h
    next p0 hp =>
      split at h
      next => simp at h
      next =>
        simp only [Option.some.injEq, Prod.mk.injEq] at h
        obtain ⟨hTm, hId⟩ := h
        subst hTm
        subst hId
        simp only [List.getElem?_concat_length, Option.map_some]
        rw [tripEndFromLegs_eq_claimedEnd map legs last hlast] at heq
        exact heq.symm

/-- Witness for C2 at a concrete input. -/
theorem new_trip_end_derivation_witness :
    c2Result.trips[(TripID.mk 0).idx]?.map (fun t => t.info.endp) =
      claimedEnd cMapPath (TripLeg.Walk ⟨SidewalkPOI.Building ⟨7⟩, ⟨⟨0⟩, 1⟩⟩) :=
  new_trip_end_derivation ⟨0⟩ 5 (TripEndpoint.Bldg ⟨3⟩) TripMode.Walk ⟨0⟩ false c2Legs
    cMapPath c2Tm c2Result ⟨0⟩ (TripLeg.Walk ⟨SidewalkPOI.Building ⟨7⟩, ⟨⟨0⟩, 1⟩⟩) rfl
    (by rfl)

/-- Helper: a non-decreasing chain is preserved when the value function
is replaced by one agreeing on the members of the list. -/
theorem chain_le_congr (f g : TripID → Nat) (l : List TripID)
    (h : ∀ a ∈ l, f a = g a) (hc : List.Chain' (fun a b => f a ≤ f b) l) :
    List.Chain' (fun a b => g a ≤ g b) l := by
  induction l with
  | nil => exact List.chain'_nil
  | cons a as ih =>
    rw [List.chain'_cons'] at hc ⊢
    refine ⟨?_, ih (fun x hx => h x (List.mem_cons_of_mem a hx)) hc.2⟩
    intro b hb
    have hbmem : b ∈ as := List.mem_of_mem_head? hb
    rw [← h a (List.mem_cons_self a as), ← h b (List.mem_cons_of_mem a hbmem)]
    exact hc.1 b hb

/-- Helper: shape of new_trip when the person already has trips whose
last id is in range; everything reduces to the departure check. -/
theorem newTrip_cons_eq (person : PersonID) (departure : Time) (start : TripEndpoint)
    (mode : TripMode) (purpose : TripPurpose) (modified : Bool) (legs : List TripLeg)
    (map : Map) (tm : TripManager) (e : TripEndpoint) (p : Person) (t : TripID)
    (prev : Trip)
    (hne : legs.isEmpty = false)
    (hend : tripEndFromLegs map legs = some e)
    (hp : tm.people[person.idx]? = some p)
    (hlast : p.trips.getLast? = some t)
    (hprev : tm.trips[t.idx]? = some prev) :
    newTrip person departure start mode purpose modified legs map tm =
      if departure < prev.info.departure then none
      else some ({ tm with
        trips := tm.trips ++ [mkNewTrip tm person departure start mode purpose modified legs e],
        people := tm.people.set person.idx
          { p with trips := p.trips ++ [(⟨tm.trips.length⟩ : TripID)] },
        unfinished_trips := tm.unfinished_trips + 1 }, (⟨tm.trips.length⟩ : TripID)) := by
  have hpne : p.trips.isEmpty = false := by
    cases hq : p.trips
    · rw [hq] at hlast
      simp at hlast
    · rfl
  simp [newTrip, hne, hend, hp, hpne, hlast, hprev]
  by_cases hlt : departure < prev.info.departure
  · simp [hlt]
  · simp [hlt, mkNewTrip]

/-- Helper: new_trip panics when the last trip id of the person is out of
range of the trips list. -/
theorem newTrip_dangling_none (person : PersonID) (departure : Time) (start : TripEndpoint)
    (mode : TripMode) (purpose : TripPurpose) (modified : Bool) (legs : List TripLeg)
    (map : Map) (tm : TripManager) (e : TripEndpoint) (p : Person) (t : TripID)
    (hne : legs.isEmpty = false)
    (hend : tripEndFromLegs map legs = some e)
    (hp : tm.people[person.idx]? = some p)
    (hlast : p.trips.getLast? = some t)
    (hprev : tm.trips[t.idx]? = none) :
    newTrip person departure start mode purpose modified legs map tm = none := by
  have hpne : p.trips.isEmpty = false := by
    cases hq : p.trips
    · rw [hq] at hlast
      simp at hlast
    · rfl
  simp [newTrip, hne, hend, hp, hpne, hlast, hprev]

/-- Helper: projected shape of new_trip for a person with no trip yet; it
always succeeds and appends the fresh id. -/
theorem newTrip_nil_proj (person : PersonID) (departure : Time) (start : TripEndpoint)
    (mode : TripMode) (purpose : TripPurpose) (modified : Bool) (legs : List TripLeg)
    (map : Map) (tm : TripManager) (e : TripEndpoint) (p : Person)
    (hne : legs.isEmpty = false)
    (hend : tripEndFromLegs map legs = some e)
    (hp : tm.people[person.idx]? = some p)
    (htrips : p.trips = []) :
    (newTrip person departure start mode purpose modified legs map tm).map
      (fun r => (r.1.people[person.idx]?.map (fun q => q.trips), r.2)) =
      some (some [(⟨tm.trips.length⟩ : TripID)], (⟨tm.trips.length⟩ : TripID)) := by
  have hplen : person.idx < tm.people.length := (List.getElem?_eq_some.mp hp).1
  cases start with
  | Bldg b => simp [newTrip, hne, hend, hp, htrips, List.getElem?_set_self, hplen]
  | Border i loc =>
    cases loc with
    | none => simp [newTrip, hne, hend, hp, htrips, List.getElem?_set_self, hplen]
    | some l => simp [newTrip, hne, hend, hp, htrips, List.getElem?_set_self, hplen]

/-- Claim C8: under a well-formed legs list and a valid person index,
new_trip panics exactly when the new departure is strictly below the
departure of the last existing trip; with no prior trip it succeeds; on
success the new id is trips.len(), it is appended at the end of the
trip list of the person (insertion order preserved, equal departures
allowed), and a list sorted non-decreasing by departure stays sorted. -/
theorem new_trip_departure (person : PersonID) (departure : Time) (start : TripEndpoint)
    (mode : TripMode) (purpose : TripPurpose) (modified : Bool) (legs : List TripLeg)
    (map : Map) (tm : TripManager) (e : TripEndpoint) (p : Person)
    (hend : tripEndFromLegs map legs = some e)
    (hne : legs.isEmpty = false)
    (hp : tm.people[person.idx]? = some p) :
    (∀ t prev, p.trips.getLast? = some t → tm.trips[t.idx]? = some prev →
      ((newTrip person departure start mode purpose modified legs map tm = none) ↔
        departure < prev.info.departure)) ∧
    (p.trips = [] →
      (newTrip person departure start mode purpose modified legs map tm).isSome = true) ∧
    (∀ tm2 id, newTrip person departure start mode purpose modified legs map tm
        = some (tm2, id) →
      id = ⟨tm.trips.length⟩ ∧
      tm2.people[person.idx]?.map (fun q => q.trips)
        = some (p.trips ++ [(⟨tm.trips.length⟩ : TripID)]) ∧
      (sortedTrips tm p.trips → (∀ t ∈ p.trips, t.idx < tm.trips.length) →
        sortedTrips tm2 (p.trips ++ [(⟨tm.trips.length⟩ : TripID)]))) := by
  have hplen : person.idx < tm.people.length := (List.getElem?_eq_some.mp hp).1
  refine ⟨?_, ?_, ?_⟩
  · intro t prev hlast hprev
    rw [newTrip_cons_eq person departure start mode purpose modified legs map tm e p t prev
      hne hend hp hlast hprev]
    constructor
    · intro hnone
      by_contra hge
      rw [if_neg hge] at hnone
      cases hnone
    · intro hlt
      rw [if_pos hlt]
  · intro htrips
    have hproj := newTrip_nil_proj person departure start mode purpose modified legs map tm
      e p hne hend hp htrips
    cases hnt : newTrip person departure start mode purpose modified legs map tm with
    | none => rw [hnt] at hproj; cases hproj
    | some r => rfl
  · intro tm2 id h
    cases hlaste : p.trips.getLast? with
    | none =>
      have htrips : p.trips = [] := List.getLast?_eq_none_iff.mp hlaste
      have hproj := newTrip_nil_proj person departure start mode purpose modified legs map tm
        e p hne hend hp htrips
      rw [h] at hproj
      simp at hproj
      obtain ⟨hppl, hid⟩ := hproj
      obtain ⟨a, ha, hat⟩ := hppl
      refine ⟨hid, ?_, ?_⟩
      · rw [ha, htrips]
        simp [hat]
      · intro hsorted hrange
        rw [htrips]
        simp [sortedTrips]
    | some t =>
      cases hprevE : tm.trips[t.idx]? with
      | none =>
        rw [newTrip_dangling_none person departure start mode purpose modified legs map tm
          e p t hne hend hp hlaste hprevE] at h
        cases h
      | some prev =>
        rw [newTrip_cons_eq person departure start mode purpose modified legs map tm e p t
          prev hne hend hp hlaste hprevE] at h
        by_cases hlt : departure < prev.info.departure
        · rw [if_pos hlt] at h
          cases h
        · rw [if_neg hlt] at h
          simp only [Option.some.injEq, Prod.mk.injEq] at h
          obtain ⟨hTm, hId⟩ := h
          subst hId
          refine ⟨rfl, ?_, ?_⟩
          · rw [← hTm]
            simp [List.getElem?_set_self, hplen]
          · intro hsorted hrange
            rw [← hTm]
            unfold sortedTrips at hsorted ⊢
            rw [List.chain'_append]
            refine ⟨?_, List.chain'_singleton _, ?_⟩
            · refine chain_le_congr (depOf tm) _ p.trips ?_ hsorted
              intro a ha
              unfold depOf
              simp only []
              rw [List.getElem?_append_left (hrange a ha)]
            · intro x hx y hy
              have hxt : x = t := by
                rw [hlaste] at hx
                simp at hx
                exact hx.symm
              have hynew : y = (⟨tm.trips.length⟩ : TripID) := by
                simp at hy
                exact hy.symm
              rw [hxt, hynew]
              unfold depOf
              have hti : t.idx < tm.trips.length := (List.getElem?_eq_some.mp hprevE).1
              simp [List.getElem?_append_left hti, hprevE, List.getElem?_concat_length,
                mkNewTrip]
              exact Nat.le_of_not_lt hlt

/-- Witness for C8 at a concrete input with equal departures (5 and 5):
the call does not panic, since panicking is equivalent to the new
departure being strictly smaller. -/
theorem new_trip_departure_witness :
    (newTrip ⟨0⟩ 5 (TripEndpoint.Bldg ⟨3⟩) TripMode.Walk ⟨0⟩ false c2Legs cMapPath c8Tm
      = none) ↔ (5 : Time) < c8Trip0.info.departure :=
  (new_trip_departure ⟨0⟩ 5 (TripEndpoint.Bldg ⟨3⟩) TripMode.Walk ⟨0⟩ false c2Legs cMapPath
    c8Tm (TripEndpoint.Bldg ⟨7⟩) c8Person rfl rfl rfl).1 ⟨0⟩ c8Trip0 rfl rfl

/-- Claim C7 counterexample. The claim says an Alert is emitted only when
no free spot is found; on the concrete state c7Tm a free spot IS found
(the car is reserved and parked at it) and an Alert is emitted anyway. -/
theorem c7_alert_on_successful_warp :
    (cancelTrip 2 7 ⟨0⟩ "no path to drive" (some cVehicle) c7Tm cCtxPath).map
      (fun r => (r.2.parking.reserved_spots, r.2.parking.parked_cars,
        countAlerts r.1.events)) =
      some ([ParkingSpot.Onstreet ⟨10⟩ 0],
        [⟨cVehicle, ParkingSpot.Onstreet ⟨10⟩ 0, 7⟩], 1) := by
  rfl

/-- Claim C7 as amended: when cancel_trip is given an abandoned car and
the destination is a building, a free spot is sought first near the
driving lane of the building and otherwise by searching for any reachable
free spot; if one is found it is reserved and the car is parked there
with parked_since = now, and an Alert is emitted in BOTH cases (noting
the warp on success, the failure otherwise); a bike is never warped (no
parking mutation, no warp Alert). -/
theorem cancel_trip_warp (fuel : Nat) (now : Time) (id : TripID) (reason : String)
    (vehicle : Vehicle) (tm : TripManager) (ctx : Ctx) (tr : Trip) (p : Person)
    (b : BuildingID)
    (htr : tm.trips[id.idx]? = some tr)
    (hend : tr.info.endp = TripEndpoint.Bldg b)
    (hp : tm.people[tr.person.idx]? = some p)
    (hdel : p.delayed_trips = []) :
    (vehicle.vehicle_type = VehicleType.Car →
      ∀ spot,
        Option.orElse
          (((ctx.parking.getAllFreeSpots
            (Position.start (ctx.map.find_driving_lane_near_building b)) vehicle b).head?).map
            Prod.fst)
          (fun _ => (ctx.parking.pathToFreeParkingSpot
            (ctx.map.find_driving_lane_near_building b) vehicle b).map (fun q => q.2.1))
          = some spot →
        (cancelTrip (fuel+2) now id reason (some vehicle) tm ctx).map
          (fun r => (r.2.parking.reserved_spots, r.2.parking.parked_cars,
            countAlerts r.1.events)) =
          some (ctx.parking.reserved_spots ++ [spot],
            ctx.parking.parked_cars ++ [⟨vehicle, spot, now⟩],
            countAlerts tm.events + 1)) ∧
    (vehicle.vehicle_type = VehicleType.Car →
      Option.orElse
          (((ctx.parking.getAllFreeSpots
            (Position.start (ctx.map.find_driving_lane_near_building b)) vehicle b).head?).map
            Prod.fst)
          (fun _ => (ctx.parking.pathToFreeParkingSpot
            (ctx.map.find_driving_lane_near_building b) vehicle b).map (fun q => q.2.1))
          = none →
        (cancelTrip (fuel+2) now id reason (some vehicle) tm ctx).map
          (fun r => (r.2.parking.reserved_spots, r.2.parking.parked_cars,
            countAlerts r.1.events)) =
          some (ctx.parking.reserved_spots, ctx.parking.parked_cars,
            countAlerts tm.events + 1)) ∧
    (vehicle.vehicle_type = VehicleType.Bike →
        (cancelTrip (fuel+2) now id reason (some vehicle) tm ctx).map
          (fun r => (r.2.parking.reserved_spots, r.2.parking.parked_cars,
            countAlerts r.1.events)) =
          some (ctx.parking.reserved_spots, ctx.parking.parked_cars,
            countAlerts tm.events)) := by
  have hplen : tr.person.idx < tm.people.length := (List.getElem?_eq_some.mp hp).1
  refine ⟨?_, ?_, ?_⟩
  · intro hcar spot hspot
    cases hps : p.state <;>
      simp [cancelTrip, personFinishedTrip, htr, hend, hp, hdel, hps, hcar, hspot,
        ParkingSim.reserveSpot, ParkingSim.addParkedCar, countAlerts, List.filter_append,
        List.getElem?_set_self, hplen]
  · intro hcar hspot
    cases hps : p.state <;>
      simp [cancelTrip, personFinishedTrip, htr, hend, hp, hdel, hps, hcar, hspot,
        countAlerts, List.filter_append, List.getElem?_set_self, hplen]
  · intro hbike
    cases hps : p.state <;>
      simp [cancelTrip, personFinishedTrip, htr, hend, hp, hdel, hps, hbike,
        countAlerts, List.filter_append, List.getElem?_set_self, hplen]

/-- Witness for the amended C7 at a concrete input with no free spot:
the parking state is unchanged and one Alert is emitted. -/
theorem cancel_trip_warp_witness :
    (cancelTrip 2 7 ⟨0⟩ "no path to drive" (some cVehicle) c7Tm cCtxNoSpots).map
      (fun r => (r.2.parking.reserved_spots, r.2.parking.parked_cars,
        countAlerts r.1.events)) =
      some (cCtxNoSpots.parking.reserved_spots, cCtxNoSpots.parking.parked_cars,
        countAlerts c7Tm.events + 1) :=
  (cancel_trip_warp 0 7 ⟨0⟩ "no path to drive" cVehicle c7Tm cCtxNoSpots c7Trip c1Person
    ⟨1⟩ rfl rfl rfl rfl).2.1 rfl rfl

end AbStreet
